import Mathlib

/-!
Shallow embedding of the olympus anvil-drop simulator (src/main.rs).

Modelling conventions: every Rust `f64` value is modelled as an exact
real number; the Rust cast `elevation as usize` (saturating truncation
toward zero, so zero on negative input) is the natural-number floor
`Nat.floor`; the float `powf` is the real power `Real.rpow`; the Rust
slice index `DENSITY_AT_10KM[index]` is `List.getD` (the in-bounds
claims show the default is never taken).  The `while` loop of `main`
is modelled by a fuel-indexed iteration `simulate` of the loop body
`step` guarded by `loopGuard`, exactly as the source orders the
updates: velocity, then distance, then elapsed time.
-/

namespace Olympus

noncomputable section

open scoped Classical

/-- gravitational constant, m^3/(kg s^2) (source constant `G`). -/
def G : ℝ := 6.67e-11

/-- mass of the earth in kg (source constant `M_EARTH`). -/
def M_EARTH : ℝ := 5.97e24

/-- average radius of the earth in m (source constant `R_EARTH`). -/
def R_EARTH : ℝ := 6.367e6

/-- the Karman line altitude in m (source constant `KARMAN_LINE`). -/
def KARMAN_LINE : ℝ := 100000

/-- the density samples at 10 km steps (source constant `DENSITY_AT_10KM`). -/
def DENSITY_AT_10KM : List ℝ :=
  [1.22, 0.413, 8.89e-2, 1.84e-2, 4e-3, 1.03e-3, 3.1e-4, 8.3e-5, 1.85e-5, 4.12e-6, 0.00]

/-- the base `1.0 - 2.25577e-5 * elevation` of the barometric power taken in
the sub-sea-level branch of `air_density`. -/
def barometricBase (elevation : ℝ) : ℝ := 1 - 2.25577e-5 * elevation

/-- the table index `elevation as usize / 10000` computed by `air_density`:
`as usize` truncates toward zero (saturating at zero for negative input),
which on the reals is the natural-number floor. -/
def densityIndex (elevation : ℝ) : ℕ := ⌊elevation⌋₊ / 10000

/-- `air_density` from the source.  In the final branch the source binds
`p_sea_level = 101325.0` Pa, `p = p_sea_level * base.powf(5.25588)`,
`r = 8.314`, `t = 288.0`, `m = 0.02897` and returns `(p * m) / (r * t)`;
those bindings are inlined here. -/
def air_density (elevation : ℝ) : ℝ :=
  if elevation > KARMAN_LINE then 0
  else if elevation > 0 then
    DENSITY_AT_10KM.getD (densityIndex elevation) 0
  else
    101325 * barometricBase elevation ^ (5.25588 : ℝ) * 0.02897 / (8.314 * 288)

/-- `volume_of_sphere` from the source. -/
def volume_of_sphere (radius : ℝ) : ℝ :=
  radius * radius * radius * Real.pi * 4 / 3

/-- `mass_of_earth` from the source. -/
def mass_of_earth (elevation : ℝ) : ℝ :=
  if elevation > 0 then M_EARTH
  else (M_EARTH / volume_of_sphere R_EARTH) * |volume_of_sphere (R_EARTH + elevation)|

/-- `f_gravity` from the source. -/
def f_gravity (m1 m2 d : ℝ) : ℝ := (G * m1 * m2) / (d * d)

/-- `f_drag` from the source. -/
def f_drag (density velocity width : ℝ) : ℝ :=
  0.5 * density * velocity * velocity * width * width * 1.09

/-- `table_limit` from `main`: `(DENSITY_AT_10KM.len() - 1) as f64 * 10000.0`. -/
def table_limit : ℝ := ((DENSITY_AT_10KM.length - 1 : ℕ) : ℝ) * 10000

/-- The mutable loop state of `main`: `distance`, `velocity`, `t`. -/
structure SimState where
  distance : ℝ
  velocity : ℝ
  t : ℝ

/-- The guard of the `while` loop in `main`:
`(tartarus && t < 9.0 * 24.0 * 3600.0) || (distance - (velocity * delta_t) > 0.0)`. -/
def loopGuard (tartarus : Bool) (delta_t : ℝ) (s : SimState) : Prop :=
  (tartarus = true ∧ s.t < 9 * 24 * 3600) ∨ s.distance - s.velocity * delta_t > 0

/-- One iteration of the loop body of `main` (reporting has no effect on the
state and is omitted): update velocity from the gravity and drag
accelerations, then distance from the new velocity, then elapsed time. -/
def step (mass width delta_t : ℝ) (s : SimState) : SimState :=
  let m_earth := mass_of_earth s.distance
  let density := air_density s.distance
  let a_g := f_gravity mass m_earth (s.distance + R_EARTH) / mass
  let a_d := if s.distance < table_limit then f_drag density s.velocity width / mass else 0
  let velocity := s.velocity + (a_g - a_d) * delta_t
  { distance := s.distance - velocity * delta_t
    velocity := velocity
    t := s.t + delta_t }

/-- The `while` loop of `main`, indexed by fuel: run `step` while `loopGuard`
holds, at most `n` times. -/
def simulate (tartarus : Bool) (mass width delta_t : ℝ) : ℕ → SimState → SimState
  | 0, s => s
  | n + 1, s =>
    if loopGuard tartarus delta_t s then
      simulate tartarus mass width delta_t n (step mass width delta_t s)
    else s

/-- The initial state of `main`: `distance = initial_distance`,
`velocity = 0.0`, `t = 0.0`. -/
def initState (initial_distance : ℝ) : SimState :=
  { distance := initial_distance, velocity := 0, t := 0 }

end

/-- Claim C9: `f_gravity` is symmetric in its two mass arguments. -/
theorem f_gravity_symm (m1 m2 d : ℝ) : f_gravity m1 m2 d = f_gravity m2 m1 d := by
  unfold f_gravity; ring

/-- Claim C3, counterexample: the drag cutoff `table_limit` and the density
cutoff `KARMAN_LINE` are the same value, 100000 m, refuting the claim that
they do not coincide. -/
theorem table_limit_eq_karman : table_limit = KARMAN_LINE := by
  norm_num [table_limit, KARMAN_LINE, DENSITY_AT_10KM]

/-- Claim C3, amended: both the drag cutoff `table_limit` (computed as
`(11 - 1) * 10000`) and the density cutoff `KARMAN_LINE` equal 100000 m and
hence coincide; at exactly 100000 m the drag branch is off (the comparison
is strict) and the density is the last table entry, 0. -/
theorem drag_and_density_cutoffs_coincide :
    table_limit = 100000 ∧ KARMAN_LINE = 100000 ∧
      ¬ ((100000 : ℝ) < table_limit) ∧ air_density 100000 = 0 := by
  have hlim : table_limit = 100000 := by
    norm_num [table_limit, DENSITY_AT_10KM]
  refine ⟨hlim, by norm_num [KARMAN_LINE], by rw [hlim]; norm_num, ?_⟩
  have h1 : ¬ ((100000 : ℝ) > KARMAN_LINE) := by norm_num [KARMAN_LINE]
  have h2 : (100000 : ℝ) > 0 := by norm_num
  rw [air_density, if_neg h1, if_pos h2]
  have hidx : densityIndex 100000 = 10 := by
    simp [densityIndex, Nat.floor_ofNat]
  rw [hidx]
  norm_num [DENSITY_AT_10KM]

/-- Claim C4, counterexample: there is no negative altitude at which the
barometric base `1 - 2.25577e-5 * altitude` is negative (the claim asserts
such an altitude exists). -/
theorem no_negative_base_below_sea_level :
    (∃ a : ℝ, a < 0 ∧ barometricBase a < 0) ↔ False := by
  constructor
  · rintro ⟨a, ha, hb⟩
    unfold barometricBase at hb
    nlinarith [mul_pos (by norm_num : (0 : ℝ) < 2.25577e-5) (neg_pos.2 ha)]
  · exact fun h => h.elim

/-- Claim C4, amended: on the whole domain of the sub-sea-level branch
(`altitude ≤ 0`) the barometric base is at least 1, so the non-integer power
is well defined and the computed density is strictly positive; the base is
never negative there. -/
theorem barometric_branch_well_defined (a : ℝ) (h : a ≤ 0) :
    1 ≤ barometricBase a ∧ 0 < air_density a := by
  have hb : 1 ≤ barometricBase a := by
    unfold barometricBase
    nlinarith [mul_nonneg (by norm_num : (0 : ℝ) ≤ 2.25577e-5) (neg_nonneg.2 h)]
  refine ⟨hb, ?_⟩
  have h1 : ¬ (a > KARMAN_LINE) := by
    rw [KARMAN_LINE]; push_neg; linarith
  have h2 : ¬ (a > 0) := by push_neg; exact h
  rw [air_density, if_neg h1, if_neg h2]
  have hbpos : (0 : ℝ) < barometricBase a := lt_of_lt_of_le one_pos hb
  have hpow : (0 : ℝ) < barometricBase a ^ (5.25588 : ℝ) :=
    Real.rpow_pos_of_pos hbpos _
  positivity

/-- Witness for C4 at the concrete altitude -1000 m. -/
theorem barometric_branch_well_defined_witness :
    1 ≤ barometricBase (-1000) ∧ 0 < air_density (-1000) :=
  barometric_branch_well_defined (-1000) (by norm_num)

/-- Claim C1, counterexample: in Tartarus mode, at the state with
elapsed time exactly 9 days (777600 s), distance 1000000 m and velocity 0,
the loop guard still holds even though the Tartarus time condition
`t < 9 days` is false: termination is not governed solely by the 9-day rule. -/
theorem tartarus_guard_holds_after_nine_days :
    loopGuard true (1 / 100) ⟨1000000, 0, 9 * 24 * 3600⟩ ∧
      ¬ ((9 * 24 * 3600 : ℝ) < 9 * 24 * 3600) := by
  constructor
  · exact Or.inr (by norm_num)
  · norm_num

/-- Claim C1, amended: in Tartarus mode the loop guard is the disjunction
`t < 9 days  OR  distance - velocity * delta_t > 0`; the loop terminates
exactly when both `9 days <= t` and the predicted next distance is
non-positive, so with enough remaining distance it runs past 9 days. -/
theorem tartarus_guard_characterization (delta_t : ℝ) (s : SimState) :
    ¬ loopGuard true delta_t s ↔
      9 * 24 * 3600 ≤ s.t ∧ s.distance - s.velocity * delta_t ≤ 0 := by
  simp [loopGuard, not_or, not_lt]

/-- Claim C2, counterexample: with mass 0 (violating `mass > 0`), width
0.279, time step 0.01 and initial distance 1, no error is raised and the
integration loop still runs: after one iteration the elapsed time is 0.01,
not 0, so the simulation did start. -/
theorem loop_runs_with_zero_mass :
    (simulate false 0 0.279 0.01 1 (initState 1)).t = 0.01 ∧ (0.01 : ℝ) ≠ 0 := by
  constructor
  · have hg : loopGuard false 0.01 (initState 1) := by
      refine Or.inr ?_
      simp [initState]
    simp only [simulate]
    rw [if_pos hg]
    simp [step, initState]
  · norm_num

/-- Claim C2, amended: the program performs no validation of `mass`,
`delta_t` or `width`; whatever their values (including ones violating
`mass > 0`, `delta_t > 0`, `width >= 0`), the loop begins whenever the loop
guard holds at the initial state, in particular whenever the initial
distance is positive: the first iteration executes and advances `t`. -/
theorem no_configuration_validation (mass width delta_t d : ℝ) (hd : 0 < d) :
    (simulate false mass width delta_t 1 (initState d)).t = delta_t := by
  have hg : loopGuard false delta_t (initState d) := by
    refine Or.inr ?_
    simpa [initState] using hd
  simp only [simulate]
  rw [if_pos hg]
  simp [step, initState]

/-- Witness for C2 at the concrete invalid configuration mass 0, width -1,
time step -1 and initial distance 1. -/
theorem no_configuration_validation_witness :
    (simulate false 0 (-1) (-1) 1 (initState 1)).t = -1 :=
  no_configuration_validation 0 (-1) (-1) 1 (by norm_num)

/-- Claim C5: `mass_of_earth` returns exactly `M_EARTH` for every positive
altitude, a value strictly below `M_EARTH` for every altitude strictly
between `-R_EARTH` and 0, and 0 at altitude `-R_EARTH`. -/
theorem mass_of_earth_cases (a : ℝ) :
    (0 < a → mass_of_earth a = M_EARTH) ∧
      (-R_EARTH < a → a < 0 → mass_of_earth a < M_EARTH) ∧
      mass_of_earth (-R_EARTH) = 0 := by
  refine ⟨fun h => ?_, fun h1 h2 => ?_, ?_⟩
  · rw [mass_of_earth, if_pos h]
  · rw [mass_of_earth, if_neg (by push_neg; linarith)]
    have hx0 : 0 < R_EARTH + a := by linarith
    have hpi : (0 : ℝ) < Real.pi := Real.pi_pos
    have hR : (0 : ℝ) < R_EARTH := by norm_num [R_EARTH]
    have hVx : 0 < volume_of_sphere (R_EARTH + a) := by
      unfold volume_of_sphere
      have h3 := mul_pos (mul_pos (mul_pos hx0 hx0) hx0) hpi
      linarith
    have hVR : 0 < volume_of_sphere R_EARTH := by
      unfold volume_of_sphere
      have h3 := mul_pos (mul_pos (mul_pos hR hR) hR) hpi
      linarith
    have hc : (R_EARTH + a) ^ 3 < R_EARTH ^ 3 :=
      pow_lt_pow_left₀ (by linarith) hx0.le (by norm_num)
    have hlt : volume_of_sphere (R_EARTH + a) < volume_of_sphere R_EARTH := by
      unfold volume_of_sphere
      nlinarith [mul_pos (sub_pos.2 hc) hpi]
    rw [abs_of_pos hVx, div_mul_eq_mul_div, div_lt_iff₀ hVR]
    exact mul_lt_mul_of_pos_left hlt (by norm_num [M_EARTH])
  · rw [mass_of_earth, if_neg (by norm_num [R_EARTH])]
    rw [show R_EARTH + -R_EARTH = (0 : ℝ) from by ring]
    simp [volume_of_sphere]

/-- The density table read out of range yields the `getD` default 0. -/
lemma table_getD_out (n : ℕ) (hn : 11 ≤ n) : DENSITY_AT_10KM.getD n 0 = 0 := by
  apply List.getD_eq_default
  simpa [DENSITY_AT_10KM] using hn

/-- Each density table entry is at most the previous one. -/
lemma table_succ_le (i : ℕ) :
    DENSITY_AT_10KM.getD (i + 1) 0 ≤ DENSITY_AT_10KM.getD i 0 := by
  match i with
  | 0 => norm_num [DENSITY_AT_10KM]
  | 1 => norm_num [DENSITY_AT_10KM]
  | 2 => norm_num [DENSITY_AT_10KM]
  | 3 => norm_num [DENSITY_AT_10KM]
  | 4 => norm_num [DENSITY_AT_10KM]
  | 5 => norm_num [DENSITY_AT_10KM]
  | 6 => norm_num [DENSITY_AT_10KM]
  | 7 => norm_num [DENSITY_AT_10KM]
  | 8 => norm_num [DENSITY_AT_10KM]
  | 9 => norm_num [DENSITY_AT_10KM]
  | 10 => norm_num [DENSITY_AT_10KM]
  | (n + 11) =>
    rw [table_getD_out (n + 11 + 1) (by omega), table_getD_out (n + 11) (by omega)]

/-- The density table is non-increasing in the index. -/
lemma table_antitone {i j : ℕ} (h : i ≤ j) :
    DENSITY_AT_10KM.getD j 0 ≤ DENSITY_AT_10KM.getD i 0 := by
  have ha : Antitone (fun k : ℕ => DENSITY_AT_10KM.getD k 0) :=
    antitone_nat_of_succ_le table_succ_le
  exact ha h

/-- On `(0, 100000]` the density is the table entry at the bucket index. -/
lemma air_density_table_branch (x : ℝ) (hx0 : 0 < x) (hx1 : x ≤ 100000) :
    air_density x = DENSITY_AT_10KM.getD (densityIndex x) 0 := by
  rw [air_density, if_neg (by rw [KARMAN_LINE]; push_neg; exact hx1), if_pos hx0]

/-- Claim C6: for every altitude in `(0, 100000]` the density equals the
table entry at index `floor(a / 10000)`, and the density is monotonically
non-increasing over the table range. -/
theorem density_table_lookup_and_antitone (a b : ℝ) (h0 : 0 < a) (h1 : a ≤ 100000) :
    air_density a = DENSITY_AT_10KM.getD ⌊a / 10000⌋₊ 0 ∧
      (a ≤ b → b ≤ 100000 → air_density b ≤ air_density a) := by
  constructor
  · rw [air_density_table_branch a h0 h1, densityIndex]
    congr 1
    rw [← Nat.floor_div_nat a 10000]
    norm_num
  · intro hab hb1
    have hb0 : 0 < b := lt_of_lt_of_le h0 hab
    rw [air_density_table_branch a h0 h1, air_density_table_branch b hb0 hb1]
    exact table_antitone (Nat.div_le_div_right (Nat.floor_mono hab))

/-- Witness for C6 at the concrete altitudes 5000 m and 15000 m. -/
theorem density_table_lookup_witness :
    air_density 5000 = DENSITY_AT_10KM.getD ⌊(5000 : ℝ) / 10000⌋₊ 0 ∧
      air_density 15000 ≤ air_density 5000 := by
  have h := density_table_lookup_and_antitone 5000 15000 (by norm_num) (by norm_num)
  exact ⟨h.1, h.2 (by norm_num) (by norm_num)⟩

/-- Claim C7: starting from initial distance 0 (velocity 0, time 0) in
normal mode, the loop guard is false immediately and the simulation
performs zero iterations for any fuel, so the final summary reports the
initial state: zero elapsed time and zero velocity. -/
theorem zero_distance_zero_iterations (n : ℕ) (mass width delta_t : ℝ) :
    simulate false mass width delta_t n (initState 0) = initState 0 ∧
      (simulate false mass width delta_t n (initState 0)).t = 0 ∧
      (simulate false mass width delta_t n (initState 0)).velocity = 0 := by
  have hg : ¬ loopGuard false delta_t (initState 0) := by
    simp [loopGuard, initState]
  have hs : simulate false mass width delta_t n (initState 0) = initState 0 := by
    cases n with
    | zero => rfl
    | succ k => simp [simulate, hg]
  exact ⟨hs, by rw [hs]; rfl, by rw [hs]; rfl⟩

/-- Claim C8: `air_density 0` takes the analytic barometric branch, whose
value is `101325 * 0.02897 / (8.314 * 288)`, is within 1 percent of
1.225 kg/m^3, and differs from the table entry at bucket 0. -/
theorem sea_level_density_analytic :
    air_density 0 = 101325 * 0.02897 / (8.314 * 288) ∧
      |air_density 0 - 1.225| ≤ 0.01 * 1.225 ∧
      air_density 0 ≠ DENSITY_AT_10KM.getD (densityIndex 0) 0 := by
  have hval : air_density 0 = 101325 * 0.02897 / (8.314 * 288) := by
    rw [air_density, if_neg (by norm_num [KARMAN_LINE]), if_neg (by norm_num)]
    rw [show barometricBase 0 = 1 by norm_num [barometricBase]]
    rw [Real.one_rpow]
    ring
  refine ⟨hval, ?_, ?_⟩
  · rw [hval]
    refine abs_le.2 ⟨by norm_num, by norm_num⟩
  · rw [hval]
    norm_num [densityIndex, DENSITY_AT_10KM]

/-- Claim C10: whenever the table branch of `air_density` is reached
(altitude positive and not above the Karman line), the computed index is
within the 11-entry table, so the lookup never goes out of bounds; at
altitude exactly 100000 the index is 10, the last entry. -/
theorem density_index_in_bounds :
    (∀ e : ℝ, 0 < e → ¬ (e > KARMAN_LINE) → densityIndex e < DENSITY_AT_10KM.length) ∧
      densityIndex 100000 = 10 := by
  constructor
  · intro e _ hle
    have h1 : e ≤ 100000 := by rw [KARMAN_LINE] at hle; push_neg at hle; exact hle
    have h2 : ⌊e⌋₊ ≤ 100000 := by
      calc ⌊e⌋₊ ≤ ⌊(100000 : ℝ)⌋₊ := Nat.floor_mono h1
        _ = 100000 := by simp
    have h3 : densityIndex e ≤ 10 := by
      unfold densityIndex
      calc ⌊e⌋₊ / 10000 ≤ 100000 / 10000 := Nat.div_le_div_right h2
        _ = 10 := by norm_num
    have h4 : DENSITY_AT_10KM.length = 11 := by simp [DENSITY_AT_10KM]
    omega
  · simp [densityIndex]
